import Mathlib

/-!
Access-control rules of the unither repository, shallowly embedded.

The repository's policy core is a pair of declarative security-rule files:
the current generation (`src/firestore.rules`) and the legacy generation
(`src/unnamed/part_001`).  Each maps an access request
(operation, actor, document path, proposed data) plus a snapshot of the
document store to an allow/deny decision.

Embedding conventions, following the engine contract stated by the rules'
own guard structure (every cross-document field access is compared against
a concrete actor id, so a missing document or field makes the comparison
false rather than granting):

* an actor is `Option String` (`none` = unauthenticated);
* a document is a record of exactly the fields the rule text consults;
  a field that is absent or null in the stored map is `none`, and every
  comparison with `none` is false (fail-closed);
* the snapshot is a total map `Path → Option Doc`; `exists(p)` is
  `(s p).isSome` and `get(p).data.f` is `(s p).bind f`;
* `resource` (the existing document at the target path) is read from the
  snapshot at the target path, so all lookups inside one decision observe
  the single snapshot;
* `request.resource.data` is the `proposed` argument;
* each `allow` statement of the source becomes one boolean term guarded by
  `reqAuth` (the `request.auth != null &&` prefix every statement carries),
  and repeated statements for the same operation are joined with `||`;
* an operation with no `allow` statement at its path, and a path with no
  matching rule block, decide `false` (closed world);
* `allow write` in the source grants create, update and delete;
* the `photoBase64` payload is modelled by its byte size, the only
  attribute of it the rules consult (`.size()`).
-/

namespace Unither

/-- The four request operations of the rules language (`allow write`
abbreviates create, update, delete and is expanded in the embedding). -/
inductive Op where
  | read
  | create
  | update
  | delete
deriving DecidableEq, Repr

/-- Document paths matched by either rule generation.  Class-scoped
collections carry their `classId` (and intermediate ids); `user` and
`completedAssignment` live under `/users`; `rootAiMaterial` is the legacy
root-level `/aiMaterials` collection. -/
inductive Path where
  | classDoc (classId : String)
  | member (classId memberId : String)
  | aiMaterial (classId materialId : String)
  | assignment (classId assignmentId : String)
  | comment (classId assignmentId commentId : String)
  | completionApproval (classId approvalId : String)
  | subject (classId subjectId : String)
  | experience (classId userId : String)
  | galleryImage (classId imageId : String)
  | album (classId albumId : String)
  | featuredImage (classId imageId : String)
  | galleryApproval (classId approvalId : String)
  | user (userId : String)
  | completedAssignment (userId completionId : String)
  | rootAiMaterial (materialId : String)
deriving DecidableEq, Repr

/-- A stored or proposed document, restricted to the fields the rule text
reads.  `createdByUid` models the nested `createdBy.uid` field of
aiMaterials documents, whose `createdBy` is a map rather than a string.
`photoBase64` holds the payload's size in bytes when the field is present. -/
structure Doc where
  createdBy : Option String
  createdByUid : Option String
  userId : Option String
  role : Option String
  teachers : Option (List String)
  subjectTeachers : Option (List String)
  approvedBy : Option String
  gradedBy : Option String
  teacherId : Option String
  classId : Option String
  photoBase64 : Option Nat
deriving DecidableEq, Repr

/-- A document with every field absent. -/
def Doc.empty : Doc :=
  ⟨none, none, none, none, none, none, none, none, none, none, none⟩

/-- A snapshot of the document store, consistent for the whole decision. -/
abbrev Store := Path → Option Doc

/-- `get(p).data.f` under the fail-closed reading: `none` when the document
is missing or the field is absent/null. -/
def fieldOf (f : Doc → Option α) (o : Option Doc) : Option α :=
  o.bind f

/-- The `request.auth != null && body` prefix that every `allow` statement
in both rule files carries: deny outright for a null actor, otherwise
evaluate the body at the actor's uid. -/
def reqAuth (actor : Option String) (body : String → Bool) : Bool :=
  match actor with
  | none => false
  | some u => body u

/-- `isAdmin()` of the current generation (src/firestore.rules lines 12-17):
`request.auth.uid == resource.data.createdBy ||
 exists(members/uid) && (role == 'admin' || role == 'teacher')`.
`res` is the `resource` of the calling rule block. -/
def isAdmin (u classId : String) (res : Option Doc) (s : Store) : Bool :=
  (fieldOf Doc.createdBy res == some u) ||
    ((s (Path.member classId u)).isSome &&
      (fieldOf Doc.role (s (Path.member classId u)) == some "admin" ||
       fieldOf Doc.role (s (Path.member classId u)) == some "teacher"))

/-- `isAdmin()` of the legacy generation (src/unnamed/part_001 lines 12-16):
identical except that only role `admin` qualifies via membership. -/
def isAdminLegacy (u classId : String) (res : Option Doc) (s : Store) : Bool :=
  (fieldOf Doc.createdBy res == some u) ||
    ((s (Path.member classId u)).isSome &&
      fieldOf Doc.role (s (Path.member classId u)) == some "admin")

/-- `isTeacher()` (src/firestore.rules lines 20-23): the actor has a Member
record in this class whose role is exactly `teacher`. -/
def isTeacher (u classId : String) (s : Store) : Bool :=
  (s (Path.member classId u)).isSome &&
    fieldOf Doc.role (s (Path.member classId u)) == some "teacher"

/-- `isTeacherForSubject(subjectId)` (src/firestore.rules lines 26-31):
the subject exists, the actor is a class teacher, the subject's `teachers`
field is non-null and contains the actor. -/
def isTeacherForSubject (u classId subjectId : String) (s : Store) : Bool :=
  (s (Path.subject classId subjectId)).isSome &&
    isTeacher u classId s &&
    (fieldOf Doc.teachers (s (Path.subject classId subjectId))).isSome &&
    ((fieldOf Doc.teachers (s (Path.subject classId subjectId))).getD []).contains u

/-- `request.auth.uid == get(/classes/$(classId)).data.createdBy`, the
class-owner test that recurs throughout both files. -/
def classOwner (u classId : String) (s : Store) : Bool :=
  fieldOf Doc.createdBy (s (Path.classDoc classId)) == some u

/-- The current-generation decision function (src/firestore.rules).  Each
match arm transcribes the `allow` statements of the corresponding rule
block; `res` in an arm abbreviates the stored document at the target path. -/
def decideCurrent (op : Op) (p : Path) (actor : Option String)
    (proposed : Option Doc) (s : Store) : Bool :=
  match p, op with
  | .classDoc _, .read => reqAuth actor fun _ => true
  | .classDoc _, .create => reqAuth actor fun _ => true
  | .classDoc c, .update =>
      reqAuth actor fun u => fieldOf Doc.createdBy (s (Path.classDoc c)) == some u
  | .classDoc c, .delete =>
      reqAuth actor fun u => fieldOf Doc.createdBy (s (Path.classDoc c)) == some u
  | .member _ _, .read => reqAuth actor fun _ => true
  | .member c _, .create =>
      reqAuth actor fun u =>
        classOwner u c s || fieldOf Doc.userId proposed == some u
  | .member c m, .update =>
      reqAuth actor fun u =>
        classOwner u c s || fieldOf Doc.userId (s (Path.member c m)) == some u
  | .member c m, .delete =>
      reqAuth actor fun u =>
        classOwner u c s || fieldOf Doc.userId (s (Path.member c m)) == some u
  | .aiMaterial _ _, .read => reqAuth actor fun _ => true
  | .aiMaterial _ _, .create => reqAuth actor fun _ => true
  | .aiMaterial _ _, .update => reqAuth actor fun _ => true
  | .aiMaterial c m, .delete =>
      reqAuth actor fun u =>
        fieldOf Doc.createdByUid (s (Path.aiMaterial c m)) == some u || classOwner u c s
  | .assignment _ _, .read => reqAuth actor fun _ => true
  | .assignment _ _, .create => reqAuth actor fun _ => true
  | .assignment c a, .update =>
      reqAuth actor fun u =>
        fieldOf Doc.createdBy (s (Path.assignment c a)) == some u || classOwner u c s
  | .assignment c a, .delete =>
      reqAuth actor fun u =>
        fieldOf Doc.createdBy (s (Path.assignment c a)) == some u || classOwner u c s
  | .comment _ _ _, .read => reqAuth actor fun _ => true
  | .comment _ _ _, .create => reqAuth actor fun _ => true
  | .comment c a k, .update =>
      reqAuth actor fun u => fieldOf Doc.userId (s (Path.comment c a k)) == some u
  | .comment c a k, .delete =>
      (reqAuth actor fun u => fieldOf Doc.userId (s (Path.comment c a k)) == some u) ||
      (reqAuth actor fun u => classOwner u c s)
  | .completionApproval _ _, .read => reqAuth actor fun _ => true
  | .completionApproval _ _, .create =>
      reqAuth actor fun u => fieldOf Doc.userId proposed == some u
  | .completionApproval c a, .update =>
      reqAuth actor fun u =>
        classOwner u c s ||
        isAdmin u c (s (Path.completionApproval c a)) s ||
        isTeacher u c s ||
        ((fieldOf Doc.subjectTeachers (s (Path.completionApproval c a))).isSome &&
          ((fieldOf Doc.subjectTeachers (s (Path.completionApproval c a))).getD []).contains u) ||
        ((fieldOf Doc.approvedBy (s (Path.completionApproval c a))).isSome &&
          fieldOf Doc.approvedBy (s (Path.completionApproval c a)) == some u) ||
        ((fieldOf Doc.gradedBy (s (Path.completionApproval c a))).isSome &&
          fieldOf Doc.gradedBy (s (Path.completionApproval c a)) == some u)
  | .completionApproval c a, .delete =>
      reqAuth actor fun u =>
        classOwner u c s ||
        isAdmin u c (s (Path.completionApproval c a)) s ||
        isTeacher u c s ||
        ((fieldOf Doc.subjectTeachers (s (Path.completionApproval c a))).isSome &&
          ((fieldOf Doc.subjectTeachers (s (Path.completionApproval c a))).getD []).contains u) ||
        ((fieldOf Doc.approvedBy (s (Path.completionApproval c a))).isSome &&
          fieldOf Doc.approvedBy (s (Path.completionApproval c a)) == some u) ||
        ((fieldOf Doc.gradedBy (s (Path.completionApproval c a))).isSome &&
          fieldOf Doc.gradedBy (s (Path.completionApproval c a)) == some u)
  | .subject _ _, .read => reqAuth actor fun _ => true
  | .subject _ _, .create => reqAuth actor fun _ => true
  | .subject c d, .update =>
      reqAuth actor fun u =>
        fieldOf Doc.createdBy (s (Path.subject c d)) == some u ||
        classOwner u c s ||
        isTeacherForSubject u c d s
  | .subject c d, .delete =>
      reqAuth actor fun u =>
        fieldOf Doc.createdBy (s (Path.subject c d)) == some u || classOwner u c s
  | .experience _ _, .read => reqAuth actor fun _ => true
  | .experience c x, .create =>
      (reqAuth actor fun u => u == x) || (reqAuth actor fun u => classOwner u c s)
  | .experience c x, .update =>
      (reqAuth actor fun u => u == x) || (reqAuth actor fun u => classOwner u c s)
  | .experience _ _, .delete => false
  | .galleryImage _ _, .read => reqAuth actor fun _ => true
  | .galleryImage c i, .create =>
      reqAuth actor fun u =>
        fieldOf Doc.createdBy (s (Path.galleryImage c i)) == some u ||
        classOwner u c s || isAdmin u c (s (Path.galleryImage c i)) s
  | .galleryImage c i, .update =>
      reqAuth actor fun u =>
        fieldOf Doc.createdBy (s (Path.galleryImage c i)) == some u ||
        classOwner u c s || isAdmin u c (s (Path.galleryImage c i)) s
  | .galleryImage c i, .delete =>
      reqAuth actor fun u =>
        fieldOf Doc.createdBy (s (Path.galleryImage c i)) == some u ||
        classOwner u c s || isAdmin u c (s (Path.galleryImage c i)) s
  | .album _ _, .read => reqAuth actor fun _ => true
  | .album c i, .create =>
      reqAuth actor fun u =>
        fieldOf Doc.createdBy (s (Path.album c i)) == some u ||
        classOwner u c s || isAdmin u c (s (Path.album c i)) s
  | .album c i, .update =>
      reqAuth actor fun u =>
        fieldOf Doc.createdBy (s (Path.album c i)) == some u ||
        classOwner u c s || isAdmin u c (s (Path.album c i)) s
  | .album c i, .delete =>
      reqAuth actor fun u =>
        fieldOf Doc.createdBy (s (Path.album c i)) == some u ||
        classOwner u c s || isAdmin u c (s (Path.album c i)) s
  | .featuredImage _ _, .read => reqAuth actor fun _ => true
  | .featuredImage c i, .create =>
      reqAuth actor fun u =>
        fieldOf Doc.createdBy (s (Path.featuredImage c i)) == some u ||
        classOwner u c s || isAdmin u c (s (Path.featuredImage c i)) s
  | .featuredImage c i, .update =>
      reqAuth actor fun u =>
        fieldOf Doc.createdBy (s (Path.featuredImage c i)) == some u ||
        classOwner u c s || isAdmin u c (s (Path.featuredImage c i)) s
  | .featuredImage c i, .delete =>
      reqAuth actor fun u =>
        fieldOf Doc.createdBy (s (Path.featuredImage c i)) == some u ||
        classOwner u c s || isAdmin u c (s (Path.featuredImage c i)) s
  | .galleryApproval _ _, .read => reqAuth actor fun _ => true
  | .galleryApproval _ _, .create =>
      reqAuth actor fun u => fieldOf Doc.createdBy proposed == some u
  | .galleryApproval c a, .update =>
      reqAuth actor fun u =>
        classOwner u c s || isAdmin u c (s (Path.galleryApproval c a)) s
  | .galleryApproval c a, .delete =>
      reqAuth actor fun u =>
        classOwner u c s || isAdmin u c (s (Path.galleryApproval c a)) s
  | .user _, .read => reqAuth actor fun _ => true
  | .user x, .create => reqAuth actor fun u => u == x
  | .user x, .update =>
      (reqAuth actor fun u => u == x) ||
      (reqAuth actor fun u =>
        u == x &&
          (!(fieldOf Doc.photoBase64 proposed).isSome ||
            ((fieldOf Doc.photoBase64 proposed).isSome &&
              decide ((fieldOf Doc.photoBase64 proposed).getD 0 < 1048576))))
  | .user x, .delete => reqAuth actor fun u => u == x
  | .completedAssignment x _, .read => reqAuth actor fun u => u == x
  | .completedAssignment _ _, .create => reqAuth actor fun _ => true
  | .completedAssignment x k, .update =>
      reqAuth actor fun u =>
        fieldOf Doc.approvedBy (s (Path.completedAssignment x k)) == some u ||
        fieldOf Doc.teacherId (s (Path.completedAssignment x k)) == some u ||
        fieldOf Doc.gradedBy (s (Path.completedAssignment x k)) == some u
  | .completedAssignment _ _, .delete => false
  | .rootAiMaterial _, _ => false

/-- The legacy-generation decision function (src/unnamed/part_001).
Differences from the current generation: `isAdminLegacy` drops the teacher
role; aiMaterials update needs ownership; completionApprovals update/delete
is class-owner only; subjects have no teacher-for-subject update;
there is no completedAssignments block; a root-level aiMaterials block
exists whose admin override resolves the class from `resource.data.classId`. -/
def decideLegacy (op : Op) (p : Path) (actor : Option String)
    (proposed : Option Doc) (s : Store) : Bool :=
  match p, op with
  | .classDoc _, .read => reqAuth actor fun _ => true
  | .classDoc _, .create => reqAuth actor fun _ => true
  | .classDoc c, .update =>
      reqAuth actor fun u => fieldOf Doc.createdBy (s (Path.classDoc c)) == some u
  | .classDoc c, .delete =>
      reqAuth actor fun u => fieldOf Doc.createdBy (s (Path.classDoc c)) == some u
  | .member _ _, .read => reqAuth actor fun _ => true
  | .member c _, .create =>
      reqAuth actor fun u =>
        classOwner u c s || fieldOf Doc.userId proposed == some u
  | .member c m, .update =>
      reqAuth actor fun u =>
        classOwner u c s || fieldOf Doc.userId (s (Path.member c m)) == some u
  | .member c m, .delete =>
      reqAuth actor fun u =>
        classOwner u c s || fieldOf Doc.userId (s (Path.member c m)) == some u
  | .aiMaterial _ _, .read => reqAuth actor fun _ => true
  | .aiMaterial _ _, .create => reqAuth actor fun _ => true
  | .aiMaterial c m, .update =>
      reqAuth actor fun u =>
        fieldOf Doc.createdByUid (s (Path.aiMaterial c m)) == some u || classOwner u c s
  | .aiMaterial c m, .delete =>
      reqAuth actor fun u =>
        fieldOf Doc.createdByUid (s (Path.aiMaterial c m)) == some u || classOwner u c s
  | .assignment _ _, .read => reqAuth actor fun _ => true
  | .assignment _ _, .create => reqAuth actor fun _ => true
  | .assignment c a, .update =>
      reqAuth actor fun u =>
        fieldOf Doc.createdBy (s (Path.assignment c a)) == some u || classOwner u c s
  | .assignment c a, .delete =>
      reqAuth actor fun u =>
        fieldOf Doc.createdBy (s (Path.assignment c a)) == some u || classOwner u c s
  | .comment _ _ _, .read => reqAuth actor fun _ => true
  | .comment _ _ _, .create => reqAuth actor fun _ => true
  | .comment c a k, .update =>
      reqAuth actor fun u => fieldOf Doc.userId (s (Path.comment c a k)) == some u
  | .comment c a k, .delete =>
      (reqAuth actor fun u => fieldOf Doc.userId (s (Path.comment c a k)) == some u) ||
      (reqAuth actor fun u => classOwner u c s)
  | .completionApproval _ _, .read => reqAuth actor fun _ => true
  | .completionApproval _ _, .create =>
      reqAuth actor fun u => fieldOf Doc.userId proposed == some u
  | .completionApproval c _, .update =>
      reqAuth actor fun u => classOwner u c s
  | .completionApproval c _, .delete =>
      reqAuth actor fun u => classOwner u c s
  | .subject _ _, .read => reqAuth actor fun _ => true
  | .subject _ _, .create => reqAuth actor fun _ => true
  | .subject c d, .update =>
      reqAuth actor fun u =>
        fieldOf Doc.createdBy (s (Path.subject c d)) == some u || classOwner u c s
  | .subject c d, .delete =>
      reqAuth actor fun u =>
        fieldOf Doc.createdBy (s (Path.subject c d)) == some u || classOwner u c s
  | .experience _ _, .read => reqAuth actor fun _ => true
  | .experience c x, .create =>
      (reqAuth actor fun u => u == x) || (reqAuth actor fun u => classOwner u c s)
  | .experience c x, .update =>
      (reqAuth actor fun u => u == x) || (reqAuth actor fun u => classOwner u c s)
  | .experience _ _, .delete => false
  | .galleryImage _ _, .read => reqAuth actor fun _ => true
  | .galleryImage c i, .create =>
      reqAuth actor fun u =>
        fieldOf Doc.createdBy (s (Path.galleryImage c i)) == some u ||
        classOwner u c s || isAdminLegacy u c (s (Path.galleryImage c i)) s
  | .galleryImage c i, .update =>
      reqAuth actor fun u =>
        fieldOf Doc.createdBy (s (Path.galleryImage c i)) == some u ||
        classOwner u c s || isAdminLegacy u c (s (Path.galleryImage c i)) s
  | .galleryImage c i, .delete =>
      reqAuth actor fun u =>
        fieldOf Doc.createdBy (s (Path.galleryImage c i)) == some u ||
        classOwner u c s || isAdminLegacy u c (s (Path.galleryImage c i)) s
  | .album _ _, .read => reqAuth actor fun _ => true
  | .album c i, .create =>
      reqAuth actor fun u =>
        fieldOf Doc.createdBy (s (Path.album c i)) == some u ||
        classOwner u c s || isAdminLegacy u c (s (Path.album c i)) s
  | .album c i, .update =>
      reqAuth actor fun u =>
        fieldOf Doc.createdBy (s (Path.album c i)) == some u ||
        classOwner u c s || isAdminLegacy u c (s (Path.album c i)) s
  | .album c i, .delete =>
      reqAuth actor fun u =>
        fieldOf Doc.createdBy (s (Path.album c i)) == some u ||
        classOwner u c s || isAdminLegacy u c (s (Path.album c i)) s
  | .featuredImage _ _, .read => reqAuth actor fun _ => true
  | .featuredImage c i, .create =>
      reqAuth actor fun u =>
        fieldOf Doc.createdBy (s (Path.featuredImage c i)) == some u ||
        classOwner u c s || isAdminLegacy u c (s (Path.featuredImage c i)) s
  | .featuredImage c i, .update =>
      reqAuth actor fun u =>
        fieldOf Doc.createdBy (s (Path.featuredImage c i)) == some u ||
        classOwner u c s || isAdminLegacy u c (s (Path.featuredImage c i)) s
  | .featuredImage c i, .delete =>
      reqAuth actor fun u =>
        fieldOf Doc.createdBy (s (Path.featuredImage c i)) == some u ||
        classOwner u c s || isAdminLegacy u c (s (Path.featuredImage c i)) s
  | .galleryApproval _ _, .read => reqAuth actor fun _ => true
  | .galleryApproval _ _, .create =>
      reqAuth actor fun u => fieldOf Doc.createdBy proposed == some u
  | .galleryApproval c a, .update =>
      reqAuth actor fun u =>
        classOwner u c s || isAdminLegacy u c (s (Path.galleryApproval c a)) s
  | .galleryApproval c a, .delete =>
      reqAuth actor fun u =>
        classOwner u c s || isAdminLegacy u c (s (Path.galleryApproval c a)) s
  | .user _, .read => reqAuth actor fun _ => true
  | .user x, .create => reqAuth actor fun u => u == x
  | .user x, .update =>
      (reqAuth actor fun u => u == x) ||
      (reqAuth actor fun u =>
        u == x &&
          (!(fieldOf Doc.photoBase64 proposed).isSome ||
            ((fieldOf Doc.photoBase64 proposed).isSome &&
              decide ((fieldOf Doc.photoBase64 proposed).getD 0 < 1048576))))
  | .user x, .delete => reqAuth actor fun u => u == x
  | .completedAssignment _ _, _ => false
  | .rootAiMaterial _, .read => reqAuth actor fun _ => true
  | .rootAiMaterial _, .create => reqAuth actor fun _ => true
  | .rootAiMaterial m, .update =>
      (reqAuth actor fun u =>
        fieldOf Doc.createdByUid (s (Path.rootAiMaterial m)) == some u) ||
      (reqAuth actor fun u =>
        match fieldOf Doc.classId (s (Path.rootAiMaterial m)) with
        | some c => classOwner u c s
        | none => false)
  | .rootAiMaterial m, .delete =>
      (reqAuth actor fun u =>
        fieldOf Doc.createdByUid (s (Path.rootAiMaterial m)) == some u) ||
      (reqAuth actor fun u =>
        match fieldOf Doc.classId (s (Path.rootAiMaterial m)) with
        | some c => classOwner u c s
        | none => false)

/-- The class-scoped collections: every path matched inside
`match /classes/{classId}`. -/
def Path.isClassScoped : Path → Bool
  | .classDoc _ => true
  | .member _ _ => true
  | .aiMaterial _ _ => true
  | .assignment _ _ => true
  | .comment _ _ _ => true
  | .completionApproval _ _ => true
  | .subject _ _ => true
  | .experience _ _ => true
  | .galleryImage _ _ => true
  | .album _ _ => true
  | .featuredImage _ _ => true
  | .galleryApproval _ _ => true
  | .user _ => false
  | .completedAssignment _ _ => false
  | .rootAiMaterial _ => false

/-- `l.contains u` agrees with list membership (strings have lawful `BEq`). -/
theorem contains_true_iff (u : String) (l : List String) :
    l.contains u = true ↔ u ∈ l := by
  simp [List.contains, List.elem_iff]

/-- C1: with a null actor (`request.auth == null`), every operation on every
document path is denied, in both rule generations. -/
theorem null_actor_denied (op : Op) (p : Path) (proposed : Option Doc)
    (s : Store) :
    decideCurrent op p none proposed s = false ∧
    decideLegacy op p none proposed s = false := by
  cases p <;> cases op <;> simp [decideCurrent, decideLegacy, reqAuth]

/-- C9: any authenticated actor may create an Assignment or a Subject in any
class, in any snapshot, with any proposed payload — no membership, role, or
ownership check applies to these `create` operations (current generation for
both collections, legacy generation for assignments). -/
theorem create_assignment_subject_unconditional (u c aid sid : String)
    (proposed : Option Doc) (s : Store) :
    decideCurrent Op.create (Path.assignment c aid) (some u) proposed s = true ∧
    decideCurrent Op.create (Path.subject c sid) (some u) proposed s = true ∧
    decideLegacy Op.create (Path.assignment c aid) (some u) proposed s = true :=
  ⟨rfl, rfl, rfl⟩

/-- C10: on every class-scoped collection, the read decision is a function of
the actor alone — it equals `actor.isSome` for arbitrary snapshots and
proposed payloads, in both rule generations, so two evaluations with the same
actor and different snapshots agree. -/
theorem read_depends_only_on_actor (p : Path) (h : p.isClassScoped = true)
    (a : Option String) (q₁ q₂ : Option Doc) (s₁ s₂ : Store) :
    decideCurrent Op.read p a q₁ s₁ = a.isSome ∧
    decideLegacy Op.read p a q₂ s₂ = a.isSome ∧
    decideCurrent Op.read p a q₁ s₁ = decideCurrent Op.read p a q₂ s₂ := by
  cases p <;>
    first
      | (cases a <;> exact ⟨rfl, rfl, rfl⟩)
      | exact absurd h (by simp [Path.isClassScoped])

/-- Witness for C10 at a concrete class-scoped path and snapshot. -/
theorem read_depends_only_on_actor_witness :
    Path.isClassScoped (Path.classDoc "c") = true ∧
    decideCurrent Op.read (Path.classDoc "c") (some "u") none (fun _ => none) =
      (some "u").isSome :=
  ⟨rfl, (read_depends_only_on_actor (Path.classDoc "c") rfl (some "u") none none
    (fun _ => none) (fun _ => none)).1⟩

/-- A class document owned by actor `alice`. -/
def aliceClassDoc : Doc :=
  ⟨some "alice", none, none, none, none, none, none, none, none, none, none⟩

/-- A member record with role `admin` (for an actor other than the owner). -/
def adminMemberDoc : Doc :=
  ⟨none, none, none, some "admin", none, none, none, none, none, none, none⟩

/-- A snapshot holding class `c` owned by `alice` and an `admin`-role member
record for `bob` in that class. -/
def classStore : Store := fun p =>
  if p = Path.classDoc "c" then some aliceClassDoc
  else if p = Path.member "c" "bob" then some adminMemberDoc
  else none

/-- C3: update and delete on a Class document are allowed exactly when the
actor equals the stored document's `createdBy`, in both rule generations;
no other condition (such as an admin membership) is consulted. -/
theorem class_update_delete_owner_only (u c : String) (d : Doc)
    (proposed : Option Doc) (s : Store) (h : s (Path.classDoc c) = some d) :
    (decideCurrent Op.update (Path.classDoc c) (some u) proposed s = true ↔
      d.createdBy = some u) ∧
    (decideCurrent Op.delete (Path.classDoc c) (some u) proposed s = true ↔
      d.createdBy = some u) ∧
    (decideLegacy Op.update (Path.classDoc c) (some u) proposed s = true ↔
      d.createdBy = some u) ∧
    (decideLegacy Op.delete (Path.classDoc c) (some u) proposed s = true ↔
      d.createdBy = some u) := by
  simp [decideCurrent, decideLegacy, reqAuth, fieldOf, h]

/-- Witness for C3: `alice` owns the class and may delete it, while `bob`,
despite an `admin` member record, is denied. -/
theorem class_update_delete_owner_only_witness :
    classStore (Path.classDoc "c") = some aliceClassDoc ∧
    decideCurrent Op.delete (Path.classDoc "c") (some "alice") none classStore = true ∧
    decideCurrent Op.delete (Path.classDoc "c") (some "bob") none classStore ≠ true :=
  ⟨rfl,
    (class_update_delete_owner_only "alice" "c" aliceClassDoc none classStore
      rfl).2.1.mpr rfl,
    fun hc =>
      absurd
        ((class_update_delete_owner_only "bob" "c" aliceClassDoc none classStore
          rfl).2.1.mp hc)
        (by decide)⟩

/-- A comment authored by actor `carol`. -/
def carolCommentDoc : Doc :=
  ⟨none, none, some "carol", none, none, none, none, none, none, none, none⟩

/-- A snapshot holding class `c` owned by `alice` and a comment by `carol`
under assignment `a`. -/
def commentStore : Store := fun p =>
  if p = Path.classDoc "c" then some aliceClassDoc
  else if p = Path.comment "c" "a" "k" then some carolCommentDoc
  else none

/-- C8: deleting a Comment is allowed exactly when the actor is the comment's
author (`userId`) or the class owner — the two separately declared `allow`
statements for delete combine by logical OR, in both rule generations. -/
theorem comment_delete_author_or_class_owner (u c aid cid : String) (d : Doc)
    (proposed : Option Doc) (s : Store)
    (h : s (Path.comment c aid cid) = some d) :
    (decideCurrent Op.delete (Path.comment c aid cid) (some u) proposed s = true ↔
      (d.userId = some u ∨ classOwner u c s = true)) ∧
    (decideLegacy Op.delete (Path.comment c aid cid) (some u) proposed s = true ↔
      (d.userId = some u ∨ classOwner u c s = true)) := by
  simp [decideCurrent, decideLegacy, reqAuth, fieldOf, h]

/-- Witness for C8: the class owner `alice`, who is not the author, may
delete `carol`'s comment through the second grant alone. -/
theorem comment_delete_author_or_class_owner_witness :
    commentStore (Path.comment "c" "a" "k") = some carolCommentDoc ∧
    decideCurrent Op.delete (Path.comment "c" "a" "k") (some "alice") none
      commentStore = true :=
  ⟨rfl,
    (comment_delete_author_or_class_owner "alice" "c" "a" "k" carolCommentDoc
      none commentStore rfl).1.mpr (Or.inr (by decide))⟩

/-- C2: in the current generation, update and delete on a CompletionApproval
are allowed exactly when at least one of the six authorization paths holds:
the actor is the class owner, satisfies `isAdmin()` (evaluated, as in the
source, with the approval document as `resource`), satisfies `isTeacher()`,
is listed in the approval's `subjectTeachers`, equals its `approvedBy`, or
equals its `gradedBy`; when all six fail the decision is deny. -/
theorem completionApproval_update_delete_disjunction (u c aid : String)
    (d : Doc) (proposed : Option Doc) (s : Store)
    (h : s (Path.completionApproval c aid) = some d) :
    (decideCurrent Op.update (Path.completionApproval c aid) (some u) proposed s
        = true ↔
      (classOwner u c s = true ∨ isAdmin u c (some d) s = true ∨
        isTeacher u c s = true ∨
        (∃ ts, d.subjectTeachers = some ts ∧ u ∈ ts) ∨
        d.approvedBy = some u ∨ d.gradedBy = some u)) ∧
    (decideCurrent Op.delete (Path.completionApproval c aid) (some u) proposed s
        = true ↔
      (classOwner u c s = true ∨ isAdmin u c (some d) s = true ∨
        isTeacher u c s = true ∨
        (∃ ts, d.subjectTeachers = some ts ∧ u ∈ ts) ∨
        d.approvedBy = some u ∨ d.gradedBy = some u)) := by
  cases hst : d.subjectTeachers <;> cases hab : d.approvedBy <;>
    cases hgb : d.gradedBy <;>
    simp [decideCurrent, reqAuth, fieldOf, h, hst, hab, hgb, contains_true_iff,
      or_assoc]

/-- A completion approval graded by `dana`, with all other fields absent. -/
def gradedApprovalDoc : Doc :=
  ⟨none, none, none, none, none, none, none, some "dana", none, none, none⟩

/-- A snapshot holding only the graded approval document. -/
def approvalStore : Store := fun p =>
  if p = Path.completionApproval "c" "a" then some gradedApprovalDoc else none

/-- Witness for C2: `dana`, qualified only as the approval's `gradedBy`, may
update it. -/
theorem completionApproval_update_delete_disjunction_witness :
    approvalStore (Path.completionApproval "c" "a") = some gradedApprovalDoc ∧
    decideCurrent Op.update (Path.completionApproval "c" "a") (some "dana")
      none approvalStore = true :=
  ⟨rfl,
    (completionApproval_update_delete_disjunction "dana" "c" "a"
        gradedApprovalDoc none approvalStore rfl).1.mpr
      (Or.inr (Or.inr (Or.inr (Or.inr (Or.inr rfl)))))⟩

/-- C4: in the current generation, update on a Subject is allowed exactly
when the actor is the subject's creator, the class owner, or satisfies
`isTeacherForSubject`; delete is allowed exactly on the first two disjuncts,
so an actor whose only qualification is `isTeacherForSubject` may update but
is denied delete. -/
theorem subject_update_delete_rights (u c sid : String) (d : Doc)
    (proposed : Option Doc) (s : Store) (h : s (Path.subject c sid) = some d) :
    (decideCurrent Op.update (Path.subject c sid) (some u) proposed s = true ↔
      (d.createdBy = some u ∨ classOwner u c s = true ∨
        isTeacherForSubject u c sid s = true)) ∧
    (decideCurrent Op.delete (Path.subject c sid) (some u) proposed s = true ↔
      (d.createdBy = some u ∨ classOwner u c s = true)) ∧
    (d.createdBy ≠ some u → classOwner u c s = false →
      isTeacherForSubject u c sid s = true →
      decideCurrent Op.update (Path.subject c sid) (some u) proposed s = true ∧
      decideCurrent Op.delete (Path.subject c sid) (some u) proposed s = false) := by
  have hu : decideCurrent Op.update (Path.subject c sid) (some u) proposed s
      = true ↔
      (d.createdBy = some u ∨ classOwner u c s = true ∨
        isTeacherForSubject u c sid s = true) := by
    simp [decideCurrent, reqAuth, fieldOf, h, or_assoc]
  have hd : decideCurrent Op.delete (Path.subject c sid) (some u) proposed s
      = true ↔
      (d.createdBy = some u ∨ classOwner u c s = true) := by
    simp [decideCurrent, reqAuth, fieldOf, h]
  refine ⟨hu, hd, fun hc ho ht => ⟨hu.mpr (Or.inr (Or.inr ht)), ?_⟩⟩
  cases hres : decideCurrent Op.delete (Path.subject c sid) (some u) proposed s
  · rfl
  · rcases hd.mp hres with hx | hx
    · exact absurd hx hc
    · rw [ho] at hx
      exact absurd hx (by simp)

/-- A subject created by `owner`, whose `teachers` set names `tina`. -/
def tinaSubjectDoc : Doc :=
  ⟨some "owner", none, none, none, some ["tina"], none, none, none, none, none,
    none⟩

/-- A member record with role `teacher`. -/
def teacherMemberDoc : Doc :=
  ⟨none, none, none, some "teacher", none, none, none, none, none, none, none⟩

/-- A snapshot holding subject `s` of class `c` and `tina`'s teacher
membership; the class document itself is absent, so `tina` is not the class
owner. -/
def subjectStore : Store := fun p =>
  if p = Path.subject "c" "s" then some tinaSubjectDoc
  else if p = Path.member "c" "tina" then some teacherMemberDoc
  else none

/-- Witness for C4: `tina`, qualified only as a teacher listed in the
subject's `teachers`, may update the subject but not delete it. -/
theorem subject_update_delete_rights_witness :
    subjectStore (Path.subject "c" "s") = some tinaSubjectDoc ∧
    (decideCurrent Op.update (Path.subject "c" "s") (some "tina") none
        subjectStore = true ∧
      decideCurrent Op.delete (Path.subject "c" "s") (some "tina") none
        subjectStore = false) :=
  ⟨rfl,
    (subject_update_delete_rights "tina" "c" "s" tinaSubjectDoc none
        subjectStore rfl).2.2 (by decide) (by decide) (by decide)⟩

/-- A proposed User update carrying a `photoBase64` payload of 2097152 bytes,
twice the documented 1 MiB bound. -/
def oversizedPhotoDoc : Doc :=
  ⟨none, none, none, none, none, none, none, none, none, none, some 2097152⟩

/-- C5 evaluation: an update to `users/alice` by `alice` herself whose
proposed data carries a 2 MiB `photoBase64` payload is ALLOWED by both rule
generations — the unconditional `allow write` statement for the profile
owner grants it even though the separate size-validating `allow update`
statement rejects the payload. -/
theorem user_update_oversized_photo_allowed :
    decideCurrent Op.update (Path.user "alice") (some "alice")
      (some oversizedPhotoDoc) (fun _ => none) = true ∧
    decideLegacy Op.update (Path.user "alice") (some "alice")
      (some oversizedPhotoDoc) (fun _ => none) = true ∧
    oversizedPhotoDoc.photoBase64 = some 2097152 ∧ 1048576 < 2097152 := by
  refine ⟨?_, ?_, rfl, by decide⟩ <;> decide

/-- `"teacher"` and `"admin"` are different role strings. -/
theorem teacher_ne_admin : ("teacher" : String) ≠ "admin" := by decide

/-- C6: the two generations' `isAdmin()` helpers agree on every snapshot and
resource except exactly when the actor does not match the resource's
`createdBy` (the class owner, at the helper's defining match level) yet has
a Member record whose role is `teacher`; on exactly those snapshots the
current generation answers true and the legacy generation answers false. -/
theorem isAdmin_generation_divergence (u c : String) (res : Option Doc)
    (s : Store) :
    ((isAdmin u c res s ≠ isAdminLegacy u c res s) ↔
      (fieldOf Doc.createdBy res ≠ some u ∧
        (s (Path.member c u)).isSome = true ∧
        fieldOf Doc.role (s (Path.member c u)) = some "teacher")) ∧
    ((fieldOf Doc.createdBy res ≠ some u ∧
        (s (Path.member c u)).isSome = true ∧
        fieldOf Doc.role (s (Path.member c u)) = some "teacher") →
      isAdmin u c res s = true ∧ isAdminLegacy u c res s = false) := by
  by_cases hcb : fieldOf Doc.createdBy res = some u
  · simp [isAdmin, isAdminLegacy, hcb]
  · by_cases hr : fieldOf Doc.role (s (Path.member c u)) = some "teacher"
    · cases hm : (s (Path.member c u)).isSome <;>
        simp [isAdmin, isAdminLegacy, hcb, hr, hm, teacher_ne_admin]
    · have hT : (fieldOf Doc.role (s (Path.member c u)) == some "teacher")
          = false := beq_eq_false_iff_ne.mpr hr
      cases hm : (s (Path.member c u)).isSome <;>
        simp [isAdmin, isAdminLegacy, hcb, hr, hm, hT]

/-- A snapshot holding only `tina`'s teacher membership in class `c`. -/
def teacherOnlyStore : Store := fun p =>
  if p = Path.member "c" "tina" then some teacherMemberDoc else none

/-- Witness for C6: with no class document (`res = none`) and a
`teacher`-role member record for `tina`, the current `isAdmin()` accepts and
the legacy one rejects. -/
theorem isAdmin_generation_divergence_witness :
    (fieldOf Doc.createdBy (none : Option Doc) ≠ some "tina" ∧
      (teacherOnlyStore (Path.member "c" "tina")).isSome = true ∧
      fieldOf Doc.role (teacherOnlyStore (Path.member "c" "tina"))
        = some "teacher") ∧
    (isAdmin "tina" "c" none teacherOnlyStore = true ∧
      isAdminLegacy "tina" "c" none teacherOnlyStore = false) :=
  ⟨⟨by decide, by decide, by decide⟩,
    (isAdmin_generation_divergence "tina" "c" none teacherOnlyStore).2
      ⟨by decide, by decide, by decide⟩⟩

/-- Result of evaluating one rules expression in the error-aware model:
`Except.error ()` is a raised evaluation error, `Except.ok b` a boolean. -/
abbrev EvalRes := Except Unit Bool

/-- Short-circuiting `&&` of the rules language: a false left operand decides
without touching the right one; an error on the left propagates. -/
def eand (a : EvalRes) (b : EvalRes) : EvalRes :=
  match a with
  | Except.ok true => b
  | Except.ok false => Except.ok false
  | Except.error e => Except.error e

/-- `get(p).data.f` in the error-aware model: reading a field of a missing
document raises. -/
def egetField (f : Doc → Option α) (o : Option Doc) : Except Unit (Option α) :=
  match o with
  | none => Except.error ()
  | some d => Except.ok (f d)

/-- `isTeacher()` in the error-aware model: `exists(member) &&
get(member).data.role == 'teacher'`, as written in the source. -/
def isTeacherE (u c : String) (s : Store) : EvalRes :=
  eand (Except.ok (s (Path.member c u)).isSome)
    (match egetField Doc.role (s (Path.member c u)) with
     | Except.error e => Except.error e
     | Except.ok r => Except.ok (r == some "teacher"))

/-- `isTeacherForSubject(subjectId)` in the error-aware model, with the
source's left-to-right conjunct order: `exists(subject) && isTeacher() &&
get(subject).data.teachers != null && uid in get(subject).data.teachers`. -/
def isTeacherForSubjectE (u c sid : String) (s : Store) : EvalRes :=
  eand
    (eand
      (eand (Except.ok (s (Path.subject c sid)).isSome) (isTeacherE u c s))
      (match egetField Doc.teachers (s (Path.subject c sid)) with
       | Except.error e => Except.error e
       | Except.ok t => Except.ok t.isSome))
    (match egetField Doc.teachers (s (Path.subject c sid)) with
     | Except.error e => Except.error e
     | Except.ok t => Except.ok ((t.getD []).contains u))

/-- C7: when the Subject document named by `subjectId` does not exist,
`isTeacherForSubject` evaluates to `ok false` — the leading `exists` conjunct
short-circuits before any `get` on the missing document can raise — and the
fail-closed decision-level helper likewise returns false. -/
theorem isTeacherForSubject_missing_subject_false (u c sid : String)
    (s : Store) (h : s (Path.subject c sid) = none) :
    isTeacherForSubjectE u c sid s = Except.ok false ∧
    isTeacherForSubject u c sid s = false := by
  constructor
  · simp only [isTeacherForSubjectE, h]
    rfl
  · simp only [isTeacherForSubject, h]
    rfl

/-- Witness for C7 on the empty snapshot. -/
theorem isTeacherForSubject_missing_subject_false_witness :
    ((fun _ => none : Store) (Path.subject "c" "s") = none) ∧
    isTeacherForSubjectE "tina" "c" "s" (fun _ => none) = Except.ok false :=
  ⟨rfl,
    (isTeacherForSubject_missing_subject_false "tina" "c" "s" (fun _ => none)
      rfl).1⟩

end Unither
